/-
Verification of the DYStgBOT Telegram bot (src/bot.py) against its
natural-language specification.

Shallow embedding conventions:
- Python strings are embedded as `List Char`; string literals are written
  as `"...".data`.
- Wall-clock time (`time.time()`, `datetime.now()`) is embedded as `Int`
  seconds; a calendar day is 86400 seconds and `datetime.replace(hour, minute,
  second=0, microsecond=0)` keeps the current day's start.  ISO-formatted
  timestamps stored in records are likewise embedded as `Int` seconds.
- The JSON file stores are embedded as association lists / lists threaded
  through the functions; `save_user_data` calls are recorded in an explicit
  write log so that persistence ordering is observable.
- Telegram / OpenAI side effects (sending a message, calling the AI) are
  recorded as entries in reply / notification / job lists; the text of most
  replies is abbreviated to a stable tag, except where a claim is about the
  literal message text.
-/
import Mathlib

set_option linter.unusedVariables false
set_option maxRecDepth 16000

/-! ## Python string primitives over `List Char` -/

/-- Embedding of Python `str.startswith`: `isPrefixCh pre s` is true when
`pre` is a prefix of `s`. -/
def isPrefixCh : List Char → List Char → Bool
  | [], _ => true
  | _ :: _, [] => false
  | a :: as, b :: bs => a = b && isPrefixCh as bs

/-- Embedding of Python's `needle in hay` substring test. -/
def containsCh (hay need : List Char) : Bool :=
  (List.range (hay.length + 1)).any fun i => isPrefixCh need (hay.drop i)

/-- Embedding of Python `str.lower` (ASCII is all the source ever feeds it). -/
def lowerCh (s : List Char) : List Char :=
  s.map Char.toLower

/-- Embedding of Python `str.strip()` (ASCII whitespace suffices for the
inputs the source handles). -/
def trimCh (s : List Char) : List Char :=
  ((s.dropWhile Char.isWhitespace).reverse.dropWhile Char.isWhitespace).reverse

/-- Split at every character satisfying `p`, keeping empty pieces, the
separator characters removed — the shape underlying Python `str.split`. -/
def pySplitP (p : Char → Bool) : List Char → List (List Char)
  | [] => [[]]
  | x :: xs =>
    let r := pySplitP p xs
    if p x then [] :: r
    else
      match r with
      | [] => [[x]]
      | y :: ys => (x :: y) :: ys

/-- Embedding of Python `str.split(c)` for a single-character separator
(empty pieces kept, exactly as Python does with an explicit separator). -/
def pySplitChar (c : Char) (s : List Char) : List (List Char) :=
  pySplitP (fun x => x = c) s

/-- Embedding of Python `str.split()` (no argument): split on whitespace
runs and drop empty pieces. -/
def pySplitWs (s : List Char) : List (List Char) :=
  (pySplitP Char.isWhitespace s).filter (· ≠ [])

/-- Embedding of Python `str.split(' ', 2)`: at most two splits at the
leftmost spaces, the remainder kept whole. -/
def pySplitSpace2 (s : List Char) : List (List Char) :=
  match pySplitChar ' ' s with
  | a :: b :: rest => if rest = [] then [a, b] else [a, b, List.intercalate [' '] rest]
  | other => other

/-- Numeric value of a run of decimal digits. -/
def digitsVal (ds : List Char) : Nat :=
  ds.foldl (fun a c => a * 10 + (c.toNat - 48)) 0

/-- Embedding of Python `int(s)` on the decimal strings the bot handles:
surrounding whitespace stripped, optional sign, then a nonempty digit run;
`none` models the `ValueError` the source catches. -/
def parsePyInt (s : List Char) : Option Int :=
  let core := fun (ds : List Char) =>
    if ds ≠ [] ∧ ds.all Char.isDigit then some ((digitsVal ds : Nat) : Int) else none
  match trimCh s with
  | '-' :: ds => (core ds).map (fun n => -n)
  | '+' :: ds => core ds
  | ds => core ds

/-- Embedding of Python `' '.join(xs)`. -/
def joinSpace (xs : List (List Char)) : List Char :=
  List.intercalate [' '] xs

/-! ## Rate limiter (src/bot.py `check_rate_limit`, lines 321–344) -/

/-- The `rate_limit` sub-record of a user record. -/
structure RateData where
  count : Nat
  last_reset : Int
deriving DecidableEq

/-- Embedding of `check_rate_limit`'s core on the `rate_limit` sub-record:
reset the counter when more than `window` seconds passed since `last_reset`,
reject without saving when the (possibly reset) count has reached `limit`,
otherwise increment and save.  The first component is the accept/reject
verdict; the second is the rate data as stored after the call — on the
reject path the source returns before `save_user_data`, so the stored data
is the unmodified input. -/
def check_rate_limit (limit : Nat) (window : Int) (now : Int) (rd : RateData) :
    Bool × RateData :=
  let rd1 := if now - rd.last_reset > window then { count := 0, last_reset := now } else rd
  if limit ≤ rd1.count then (false, rd)
  else (true, { count := rd1.count + 1, last_reset := rd1.last_reset })

/-- Folding `check_rate_limit` over a sequence of message arrival times,
threading the stored rate data; returns the per-message verdicts and the
final stored rate data. -/
def rateRun (limit : Nat) (window : Int) (rd : RateData) : List Int → List Bool × RateData
  | [] => ([], rd)
  | t :: ts =>
    let step := check_rate_limit limit window t rd
    let rest := rateRun limit window step.2 ts
    (step.1 :: rest.1, rest.2)

/-! ## User record data model (src/bot.py `get_user_data`, lines 200–280) -/

/-- The `settings.privacy` sub-record. -/
structure PrivacySettings where
  show_last_seen : Bool
  show_join_date : Bool
  show_activity_stats : Bool
deriving DecidableEq

/-- The `settings` sub-record of the full default user record. -/
structure UserSettings where
  notifications : Bool
  daily_digest : Bool
  privacy : PrivacySettings
  theme : String
deriving DecidableEq

/-- The `profile` sub-record.  `bio`, `location` and the interest items are
`List Char` because the claims constrain their character lengths. -/
structure UserProfile where
  full_name : String
  username : String
  bio : List Char
  location : List Char
  interests : List (List Char)
  preferred_topics : List String
  last_activity : Int
deriving DecidableEq

/-- The `stats` sub-record. -/
structure UserStats where
  commands_used : Nat
  messages_sent : Nat
  media_sent : Nat
  stickers_sent : Nat
  voice_messages : Nat
  active_days : Nat
  last_command : Option String
  last_command_time : Option Int
  favorite_commands : List (String × Nat)
deriving DecidableEq

/-- The `achievements` sub-record. -/
structure UserAchievements where
  welcome : Bool
  early_adopter : Bool
  active_user : Bool
  feedback_provider : Bool
  power_user : Bool
deriving DecidableEq

/-- The `metadata` sub-record. -/
structure UserMetadata where
  referral_code : String
  referred_by : String
  devices : List String
  timezone : String
deriving DecidableEq

/-- A full user record as created by `get_user_data`.  The two conversation
flags are absent from the created record; `dict.get` on the missing key is
falsy, so they are embedded as `Bool` fields that the default record sets to
`false`. -/
structure UserData where
  chat_mode : Bool
  first_seen : Int
  last_seen : Int
  message_count : Nat
  language : String
  role : String
  profile : UserProfile
  settings : UserSettings
  stats : UserStats
  rate_limit : RateData
  achievements : UserAchievements
  metadata : UserMetadata
  waiting_for_feedback : Bool
  setting_reminder : Bool
deriving DecidableEq

/-- The fully-populated default record built for a never-seen user id
(src/bot.py lines 208–264), with the role derived from the static
admin/moderator id lists at creation time. -/
def defaultUserData (adminIds modIds : List Int) (lang : String) (uid : Int)
    (now : Int) : UserData where
  chat_mode := false
  first_seen := now
  last_seen := now
  message_count := 0
  language := lang
  role :=
    if uid ∈ adminIds then "admin"
    else if uid ∈ modIds then "moderator"
    else "user"
  profile :=
    { full_name := "", username := "", bio := [], location := [], interests := []
      preferred_topics := [], last_activity := now }
  settings :=
    { notifications := true, daily_digest := false
      privacy := { show_last_seen := true, show_join_date := true, show_activity_stats := true }
      theme := "system" }
  stats :=
    { commands_used := 0, messages_sent := 0, media_sent := 0, stickers_sent := 0
      voice_messages := 0, active_days := 1, last_command := none
      last_command_time := none, favorite_commands := [] }
  rate_limit := { count := 0, last_reset := now }
  achievements :=
    { welcome := false, early_adopter := false, active_user := false
      feedback_provider := false, power_user := false }
  metadata := { referral_code := "", referred_by := "", devices := [], timezone := "UTC" }
  waiting_for_feedback := false
  setting_reminder := false

/-- The smaller `settings` dict of the hard-coded fallback record. -/
structure MinimalSettings where
  notifications : Bool
  daily_digest : Bool
deriving DecidableEq

/-- The smaller `stats` dict of the hard-coded fallback record. -/
structure MinimalStats where
  commands_used : Nat
  messages_sent : Nat
  last_command : Option String
  last_command_time : Option Int
deriving DecidableEq

/-- The hard-coded minimal record `get_user_data` returns on any read error
(src/bot.py lines 270–280); it lacks the profile, achievements and metadata
sections of the full record. -/
structure MinimalUserData where
  chat_mode : Bool
  first_seen : Int
  last_seen : Int
  message_count : Nat
  language : String
  role : String
  settings : MinimalSettings
  stats : MinimalStats
  rate_limit : RateData
deriving DecidableEq

/-- The fallback record's field values. -/
def minimalUserData (lang : String) (now : Int) : MinimalUserData where
  chat_mode := false
  first_seen := now
  last_seen := now
  message_count := 0
  language := lang
  role := "user"
  settings := { notifications := true, daily_digest := false }
  stats := { commands_used := 0, messages_sent := 0, last_command := none, last_command_time := none }
  rate_limit := { count := 0, last_reset := now }

/-- What `get_user_data` hands back: the stored/created full record on the
success path, or the minimal fallback when reading the store failed. -/
inductive FetchedUser where
  | ok (d : UserData)
  | fallback (d : MinimalUserData)
deriving DecidableEq

/-- The users.json mapping, as an insertion-ordered association list keyed
by the stringified user id. -/
def UserStore := List (String × UserData)

instance : DecidableEq UserStore := inferInstanceAs (DecidableEq (List (String × UserData)))

/-- Key lookup in the users mapping (Python `user_id_str not in users` /
`users[user_id_str]`). -/
def storeLookup (s : List (String × UserData)) (k : String) : Option UserData :=
  match s with
  | [] => none
  | (k', d) :: rest => if k' = k then some d else storeLookup rest k

/-- Embedding of `get_user_data`: reading the store is modelled by the
`Option` argument (`none` = the `try` block raised).  Returns the fetched
record, the store as left on disk, and whether a write happened.  On a
fresh id the default record is inserted and persisted once; on a read error
the hard-coded minimal record is returned without persisting. -/
def get_user_data (adminIds modIds : List Int) (lang : String) (now : Int)
    (uid : Int) (store : Option (List (String × UserData))) :
    FetchedUser × Option (List (String × UserData)) × Bool :=
  match store with
  | none => (.fallback (minimalUserData lang now), none, false)
  | some users =>
    match storeLookup users (toString uid) with
    | some d => (.ok d, some users, false)
    | none =>
      let d := defaultUserData adminIds modIds lang uid now
      (.ok d, some (users ++ [(toString uid, d)]), true)

/-- Embedding of `get_all_users` (src/bot.py lines 300–307): the whole
mapping, or the empty mapping when the read fails. -/
def get_all_users (store : Option (List (String × UserData))) : List (String × UserData) :=
  store.getD []

/-! ## Permission model (src/bot.py `is_admin` 309–312, `is_moderator` 314–319) -/

/-- Embedding of `is_admin` over the user's resolved record: stored role is
admin, or the id is in the static admin allow-list. -/
def is_admin (adminIds : List Int) (uid : Int) (d : UserData) : Bool :=
  decide (d.role = "admin") || decide (uid ∈ adminIds)

/-- Embedding of `is_moderator`: stored role is moderator or admin, or the
id is in either static allow-list. -/
def is_moderator (adminIds modIds : List Int) (uid : Int) (d : UserData) : Bool :=
  (decide (d.role = "moderator") || decide (d.role = "admin")) ||
    decide (uid ∈ modIds) || decide (uid ∈ adminIds)

/-- The `RATE_LIMIT` configuration table (src/bot.py lines 83–88). -/
structure RateConfig where
  default_limit : Nat
  default_window : Int
  admin_limit : Nat
  admin_window : Int
deriving DecidableEq

/-- Role tier used by `check_rate_limit` (src/bot.py line 324): `admin`
for admins, `default` for everyone else — moderators included. -/
def rate_limit_tier (adminIds : List Int) (uid : Int) (d : UserData) : String :=
  if is_admin adminIds uid d then "admin" else "default"

/-- `RATE_LIMIT[role]['limit']`. -/
def limitFor (cfg : RateConfig) (tier : String) : Nat :=
  if tier = "admin" then cfg.admin_limit else cfg.default_limit

/-- `RATE_LIMIT[role]['per_seconds']`. -/
def windowFor (cfg : RateConfig) (tier : String) : Int :=
  if tier = "admin" then cfg.admin_window else cfg.default_window

/-- `check_rate_limit` lifted to the whole stored user record: the verdict,
and the record as stored afterwards (unchanged on rejection). -/
def check_rate_limit_user (cfg : RateConfig) (adminIds : List Int) (uid : Int)
    (now : Int) (d : UserData) : Bool × UserData :=
  let tier := rate_limit_tier adminIds uid d
  let res := check_rate_limit (limitFor cfg tier) (windowFor cfg tier) now d.rate_limit
  (res.1, if res.1 then { d with rate_limit := res.2 } else d)

/-! ## Reminder time parsing (src/bot.py `parse_time`, lines 922–963) -/

/-- Start of `now`'s calendar day, the anchor `datetime.replace(hour=…,
minute=…, second=0, microsecond=0)` keeps. -/
def dayStart (now : Int) : Int :=
  now - now.emod 86400

/-- Embedding of `parse_time`: `"in <N> <unit>"` adds N of the unit (unit
matched case-insensitively by substring, in the source's order of checks);
`"at <HH:MM>"` is today's HH:MM, rolled to tomorrow when already past
(`datetime.replace` raises on an out-of-range hour/minute, which the source
catches); every other input falls through to now + 1 hour. -/
def parse_time (now : Int) (time_str : List Char) : Int :=
  if isPrefixCh "in ".data time_str then
    match pySplitWs (time_str.drop 3) with
    | amt :: unit :: _ =>
      match parsePyInt amt with
      | some n =>
        let u := lowerCh unit
        if containsCh u "minute".data then now + 60 * n
        else if containsCh u "hour".data then now + 3600 * n
        else if containsCh u "day".data then now + 86400 * n
        else if containsCh u "week".data then now + 604800 * n
        else now + 3600
      | none => now + 3600
    | _ => now + 3600
  else if isPrefixCh "at ".data time_str then
    match pySplitChar ':' (trimCh (time_str.drop 3)) with
    | [hs, ms] =>
      match parsePyInt hs, parsePyInt ms with
      | some h, some m =>
        if 0 ≤ h ∧ h < 24 ∧ 0 ≤ m ∧ m < 60 then
          let c := dayStart now + 3600 * h + 60 * m
          if c < now then c + 86400 else c
        else now + 3600
      | _, _ => now + 3600
    | _ => now + 3600
  else now + 3600

/-! ## World state threaded through the handlers -/

/-- A stored feedback entry (src/bot.py `handle_feedback`, lines 767–808). -/
structure FeedbackEntry where
  user_id : Int
  username : String
  text : List Char
  timestamp : Int
deriving DecidableEq

/-- A stored reminder record (src/bot.py `save_reminder`, lines 902–920). -/
structure ReminderRec where
  user_id : Int
  time : Int
  message : List Char
  created_at : Int
deriving DecidableEq

/-- A stored broadcast record (src/bot.py `save_broadcast`, lines 1016–1039). -/
structure BroadcastRecord where
  admin_id : Int
  timestamp : Int
  message : List Char
  total_recipients : Nat
  successful : Nat
  failed : Nat
deriving DecidableEq

/-- Observable state threaded through a handler invocation for one user:
that user's stored record, the feedback mapping (keyed by the stringified
timestamp), the reminders list, the one-shot jobs handed to the scheduler
as (delay, message), outbound replies to the user (abbreviated to stable
tags), notifications sent to admin ids, and the log of `save_user_data`
calls for this user. -/
structure World where
  user : UserData
  feedbacks : List (String × FeedbackEntry)
  reminders : List ReminderRec
  jobs : List (Int × List Char)
  replies : List String
  notices : List (Int × String)
  userWrites : List UserData
deriving DecidableEq

/-- A `save_user_data` call: the stored record is replaced and the write
is logged. -/
def writeUser (w : World) (d : UserData) : World :=
  { w with user := d, userWrites := w.userWrites ++ [d] }

/-- Python dict insert `feedbacks[key] = v`: overwrite in place when the
key exists, else append in insertion order. -/
def dictInsert (xs : List (String × FeedbackEntry)) (k : String) (v : FeedbackEntry) :
    List (String × FeedbackEntry) :=
  match xs with
  | [] => [(k, v)]
  | (k', v') :: rest =>
    if k' = k then (k, v) :: rest else (k', v') :: dictInsert rest k v

/-! ## Feedback flow (src/bot.py `feedback_command` 755–765, `handle_feedback` 767–808) -/

/-- Embedding of `/feedback`: set `waiting_for_feedback` and persist it,
then prompt the user. -/
def feedback_command (w : World) : World :=
  let w1 := writeUser w { w.user with waiting_for_feedback := true }
  { w1 with replies := w1.replies ++ ["feedback_prompt"] }

/-- Embedding of `handle_feedback`: store one entry keyed by the current
timestamp string, clear `waiting_for_feedback` on a fresh read of the
stored record and persist, notify every allow-listed admin, thank the
user. -/
def handle_feedback (adminIds : List Int) (now : Int) (uid : Int) (uname : String)
    (text : List Char) (w : World) : World :=
  let entry : FeedbackEntry := { user_id := uid, username := uname, text := text, timestamp := now }
  let w1 := { w with feedbacks := dictInsert w.feedbacks (toString now) entry }
  let w2 := writeUser w1 { w1.user with waiting_for_feedback := false }
  let w3 := { w2 with notices := w2.notices ++ adminIds.map (fun a => (a, "new_feedback")) }
  { w3 with replies := w3.replies ++ ["feedback_thanks"] }

/-! ## Reminder flows (src/bot.py `remind_me` 831–891, `handle_reminder` 1341–1406) -/

/-- Embedding of `/remindme` with arguments: the time string is only
`args[0]`, the message is the space-join of the remaining arguments (or
"Reminder!").  On a strictly future parsed time a one-shot job is scheduled
at the computed delay and a reminder record appended; otherwise an error
reply and nothing else.  The user record — in particular `setting_reminder`
— is never modified.  With no arguments only the usage help is sent. -/
def remind_me (now : Int) (uid : Int) (args : List (List Char)) (w : World) : World :=
  match args with
  | [] => { w with replies := w.replies ++ ["remindme_help"] }
  | a0 :: rest =>
    let message := if rest = [] then "Reminder!".data else joinSpace rest
    let rt := parse_time now a0
    if now < rt then
      { w with jobs := w.jobs ++ [(rt - now, message)]
               replies := w.replies ++ ["reminder_set"]
               reminders := w.reminders ++ [{ user_id := uid, time := rt, message := message, created_at := now }] }
    else
      { w with replies := w.replies ++ ["reminder_future_error"] }

/-- Embedding of `handle_reminder`, the pending-reminder capture: requires
`setting_reminder` on the stored record; splits the text at the first two
spaces, rebuilds the time string as `"in <p0> <p1>"`, and schedules exactly
as `remind_me` does.  A text with fewer than two space-separated parts hits
an early `return` that skips the flag reset, so `setting_reminder` stays
set; every other path clears the flag and persists. -/
def handle_reminder (now : Int) (uid : Int) (text : List Char) (w : World) : World :=
  if ¬ w.user.setting_reminder then w
  else
    let parts := pySplitSpace2 (trimCh text)
    if parts.length < 2 then
      { w with replies := w.replies ++ ["reminder_format_error"] }
    else
      let time_str := "in ".data ++ parts.getD 0 [] ++ [' '] ++ parts.getD 1 []
      let message := if parts.length > 2 then parts.getD 2 [] else "Reminder!".data
      let rt := parse_time now time_str
      let w1 :=
        if now < rt then
          { w with jobs := w.jobs ++ [(rt - now, message)]
                   replies := w.replies ++ ["reminder_set"]
                   reminders := w.reminders ++ [{ user_id := uid, time := rt, message := message, created_at := now }] }
        else
          { w with replies := w.replies ++ ["reminder_future_error"] }
      writeUser w1 { w1.user with setting_reminder := false }

/-! ## Message dispatcher (src/bot.py `handle_message`, lines 649–737) -/

/-- The branch ladder of `handle_message` after the rate-limit gate, in
source order: chat mode → AI pass-through; group/supergroup → mention
reply; private → pending feedback, pending reminder, or the `/chat`
nudge.  The conditions read the handler's local record `d1`, exactly as
the source reads its local `user_data`. -/
def dispatch_branches (adminIds : List Int) (now : Int) (uid : Int) (uname : String)
    (chatType : String) (botMentioned : Bool) (text : List Char) (d1 : UserData)
    (w2 : World) : World :=
  if d1.chat_mode then { w2 with replies := w2.replies ++ ["ai_response"] }
  else if chatType = "group" ∨ chatType = "supergroup" then
    if botMentioned then { w2 with replies := w2.replies ++ ["group_intro"] } else w2
  else if chatType = "private" then
    if d1.waiting_for_feedback then handle_feedback adminIds now uid uname text w2
    else if d1.setting_reminder then handle_reminder now uid text w2
    else if ¬ (text.head? = some '/') then { w2 with replies := w2.replies ++ ["chat_nudge"] }
    else w2
  else w2

/-- Embedding of `handle_message`'s entry: skip empty text and channels;
update and persist `last_seen` and the message counter; run the gate (a
rejection warns and stops without any further write); persist the gate's
incremented rate data and dispatch to the branches. -/
def handle_message (cfg : RateConfig) (adminIds : List Int) (now : Int) (uid : Int)
    (uname : String) (chatType : String) (botMentioned : Bool) (text : List Char)
    (w : World) : World :=
  if text = [] ∨ chatType = "channel" then w
  else
    let d1 := { w.user with
                 last_seen := now,
                 stats := { w.user.stats with
                             messages_sent := w.user.stats.messages_sent + 1 } }
    let w1 := writeUser w d1
    let gate := check_rate_limit_user cfg adminIds uid now d1
    if ¬ gate.1 then { w1 with replies := w1.replies ++ ["rate_limit_warning"] }
    else dispatch_branches adminIds now uid uname chatType botMentioned text d1
      (writeUser w1 gate.2)

/-! ## Profile editing (src/bot.py `save_profile_edit`, lines 459–497) -/

/-- Conversation states (src/bot.py line 38). -/
def PROFILE : Nat := 0

/-- Conversation state `EDIT_CHOICE`. -/
def EDIT_CHOICE : Nat := 1

/-- Conversation state `EDIT_VALUE`. -/
def EDIT_VALUE : Nat := 2

/-- Interest list parsing: split on commas, strip each item, drop empties
(src/bot.py line 479). -/
def parseInterests (value : List Char) : List (List Char) :=
  ((pySplitChar ',' value).map trimCh).filter (· ≠ [])

/-- Embedding of `save_profile_edit`: the received text is stripped, then
validated against the field being edited; a violation replies with the
specific error and returns `EDIT_VALUE` without touching the stored record;
success stores the field, stamps `profile.last_activity`, persists, and
returns `PROFILE`.  Result: (stored record, next conversation state,
replies, whether a save happened). -/
def save_profile_edit (now : Int) (field : Option String) (text : List Char)
    (d : UserData) : UserData × Nat × List String × Bool :=
  let value := trimCh text
  if field = some "bio" then
    if 500 < value.length then (d, EDIT_VALUE, ["bio_too_long"], false)
    else
      let d1 := { d with profile := { d.profile with bio := value, last_activity := now } }
      (d1, PROFILE, ["bio_updated"], true)
  else if field = some "location" then
    if 100 < value.length then (d, EDIT_VALUE, ["location_too_long"], false)
    else
      let d1 := { d with profile := { d.profile with location := value, last_activity := now } }
      (d1, PROFILE, ["location_updated"], true)
  else if field = some "interests" then
    let interests := parseInterests value
    if 10 < interests.length then (d, EDIT_VALUE, ["too_many_interests"], false)
    else if interests.any (fun i => 30 < i.length) then
      (d, EDIT_VALUE, ["interest_too_long"], false)
    else
      let d1 := { d with profile := { d.profile with interests := interests, last_activity := now } }
      (d1, PROFILE, ["interests_updated"], true)
  else
    let d1 := { d with profile := { d.profile with last_activity := now } }
    (d1, PROFILE, [], true)

/-! ## Promotion and demotion (src/bot.py `promote_user` 1237–1288, `demote_user` 1290–1339) -/

/-- The static allow-lists, carried explicitly so that the theorems can
state that promotion/demotion never touches them. -/
structure BotConfig where
  adminIds : List Int
  modIds : List Int
deriving DecidableEq

/-- Embedding of `/promote` applied to the target's record (the caller's
admin gate and argument parsing pass): an invalid role name changes
nothing; otherwise only the stored `role` field is overwritten and the
record persisted.  Result: (config, stored record, reply, wrote). -/
def promote_user_core (cfg : BotConfig) (newRole : String) (d : UserData) :
    BotConfig × UserData × String × Bool :=
  if ¬ (newRole = "moderator" ∨ newRole = "admin") then
    (cfg, d, "invalid_role", false)
  else
    let r := if newRole = "moderator" then "moderator" else "admin"
    (cfg, { d with role := r }, "promoted", true)

/-- Embedding of `/demote` applied to the target's record: a stored role of
`user` is a no-op with the literal reply the source sends; otherwise the
stored `role` is set to `user` and persisted. -/
def demote_user_core (cfg : BotConfig) (d : UserData) :
    BotConfig × UserData × String × Bool :=
  if d.role = "user" then
    (cfg, d, "❌ User is already a regular user.", false)
  else
    (cfg, { d with role := "user" }, "demoted", true)

/-! ## Broadcast (src/bot.py `broadcast_message` 965–1014, `save_broadcast` 1016–1039) -/

/-- One observable step of the broadcast loop: a send attempt to a
recipient with its outcome, or the inter-message `asyncio.sleep(0.1)` that
follows a successful send. -/
inductive BAction where
  | attempt (uid : String) (ok : Bool)
  | pause
deriving DecidableEq

/-- The recipient id of an `attempt`, for projecting a trace back to the
attempted recipients. -/
def attemptId : BAction → Option String
  | .attempt u _ => some u
  | .pause => none

/-- Embedding of the broadcast fan-out loop: recipients in stored order,
one attempt each; a successful send counts and is followed by the delay, a
failed send is counted and the loop continues.  `sendOk` models which
`bot.send_message` calls raise.  Result: (trace, successes, failures). -/
def broadcast_loop (sendOk : String → Bool) : List String → List BAction × Nat × Nat
  | [] => ([], 0, 0)
  | u :: us =>
    let rest := broadcast_loop sendOk us
    if sendOk u then (BAction.attempt u true :: BAction.pause :: rest.1, rest.2.1 + 1, rest.2.2)
    else (BAction.attempt u false :: rest.1, rest.2.1, rest.2.2 + 1)

/-- Embedding of `/broadcast` past its admin/argument gates: run the loop
over all stored user ids, append one broadcast record with the tallies, and
report (total, successful, failed) to the issuing admin. -/
def broadcast_message_core (sendOk : String → Bool) (admin_id : Int) (now : Int)
    (message : List Char) (userIds : List String) (log : List BroadcastRecord) :
    List BAction × List BroadcastRecord × (Nat × Nat × Nat) :=
  let run := broadcast_loop sendOk userIds
  let entry : BroadcastRecord :=
    { admin_id := admin_id, timestamp := now, message := message
      total_recipients := userIds.length, successful := run.2.1, failed := run.2.2 }
  (run.1, log ++ [entry], (userIds.length, run.2.1, run.2.2))

/-! ## Concrete fixtures for witnesses and counterexamples -/

/-- A concrete user record: the default record of a plain user. -/
def sampleUser : UserData := defaultUserData [] [] "en" 42 1000

/-- A concrete world around `sampleUser`. -/
def sampleWorld : World where
  user := sampleUser
  feedbacks := []
  reminders := []
  jobs := []
  replies := []
  notices := []
  userWrites := []

/-- A world whose user has AI chat mode on while `waiting_for_feedback` is
set. -/
def chatFeedbackWorld : World :=
  { sampleWorld with user := { sampleUser with chat_mode := true, waiting_for_feedback := true } }

/-- A world whose user has exhausted the default rate window. -/
def throttledWorld : World :=
  { sampleWorld with user := { sampleUser with rate_limit := { count := 10, last_reset := 0 } } }

/-- The rate configuration from the source's environment defaults:
default 10/60s, admin 30/60s. -/
def cfg0 : RateConfig where
  default_limit := 10
  default_window := 60
  admin_limit := 30
  admin_window := 60

/-! ## Theorems -/

/-- C3: for every user id, `is_admin` holds iff the stored role is admin or
the id is in the static admin allow-list, and `is_moderator` holds iff the
stored role is moderator or admin or the id is in either allow-list; an
allow-listed admin id still passes `is_admin` after the demote path runs on
its record. -/
theorem C3_permission_model (adminIds modIds : List Int) (uid : Int) (d : UserData) :
    (is_admin adminIds uid d = true ↔ (d.role = "admin" ∨ uid ∈ adminIds)) ∧
    (is_moderator adminIds modIds uid d = true ↔
      ((d.role = "moderator" ∨ d.role = "admin") ∨ uid ∈ modIds ∨ uid ∈ adminIds)) ∧
    (uid ∈ adminIds →
      is_admin adminIds uid (demote_user_core ⟨adminIds, modIds⟩ d).2.1 = true) := by
  refine ⟨?_, ?_, ?_⟩
  · simp [is_admin]
  · simp [is_moderator, or_assoc]
  · intro h
    unfold demote_user_core
    split <;> simp [is_admin, h]

/-- Witness for C3 at concrete inputs: id 5 is allow-listed, its record is
demoted, and `is_admin` still accepts it. -/
theorem C3_permission_model_witness :
    (5 : Int) ∈ [(5 : Int)] ∧
    is_admin [5] 5 (demote_user_core ⟨[5], []⟩ sampleUser).2.1 = true :=
  ⟨by decide, (C3_permission_model [5] [] 5 sampleUser).2.2 (by decide)⟩

/-- C8: promoting a record to moderator and then demoting it returns the
stored role to `user`; demoting an already-`user` record is a no-op that
reports "already a regular user"; both operations change only the stored
role field and never the static allow-lists. -/
theorem C8_promote_then_demote (cfg : BotConfig) (d : UserData) :
    (promote_user_core cfg "moderator" d).1 = cfg ∧
    (promote_user_core cfg "moderator" d).2.1 = { d with role := "moderator" } ∧
    (demote_user_core (promote_user_core cfg "moderator" d).1
        (promote_user_core cfg "moderator" d).2.1).1 = cfg ∧
    (demote_user_core (promote_user_core cfg "moderator" d).1
        (promote_user_core cfg "moderator" d).2.1).2.1 = { d with role := "user" } ∧
    (d.role = "user" →
      demote_user_core cfg d = (cfg, d, "❌ User is already a regular user.", false)) ∧
    containsCh "❌ User is already a regular user.".data "already a regular user".data = true := by
  refine ⟨rfl, rfl, ?_, ?_, ?_, by decide⟩
  · simp [promote_user_core, demote_user_core]
  · simp [promote_user_core, demote_user_core]
  · intro h
    simp [demote_user_core, h]

/-- Witness for C8 at a concrete record whose stored role is `user`. -/
theorem C8_promote_then_demote_witness :
    (demote_user_core (promote_user_core ⟨[7], [8]⟩ "moderator" sampleUser).1
        (promote_user_core ⟨[7], [8]⟩ "moderator" sampleUser).2.1).2.1 =
      { sampleUser with role := "user" } ∧
    demote_user_core ⟨[7], [8]⟩ sampleUser =
      (⟨[7], [8]⟩, sampleUser, "❌ User is already a regular user.", false) :=
  ⟨(C8_promote_then_demote ⟨[7], [8]⟩ sampleUser).2.2.2.1,
   (C8_promote_then_demote ⟨[7], [8]⟩ sampleUser).2.2.2.2.1 (by decide)⟩

/-- Appending a binding for a key that is absent is found by `storeLookup`. -/
theorem storeLookup_append_fresh (users : List (String × UserData)) (k : String)
    (d : UserData) (h : storeLookup users k = none) :
    storeLookup (users ++ [(k, d)]) k = some d := by
  induction users with
  | nil => simp [storeLookup]
  | cons p rest ih =>
    obtain ⟨k', d'⟩ := p
    by_cases hk : k' = k
    · simp [storeLookup, hk] at h
    · simp only [storeLookup, List.cons_append, if_neg hk] at h ⊢
      exact ih h

/-- C5: the first read of a never-seen user id returns the fully-populated
default record (role derived from the static allow-lists) and persists it
exactly once; a second read returns the same record without writing again;
a failed read returns the hard-coded minimal record without persisting it;
a failed all-users read returns the empty mapping. -/
theorem C5_lazy_default_record (adminIds modIds : List Int) (lang : String)
    (now now2 : Int) (uid : Int) (users : List (String × UserData))
    (hfresh : storeLookup users (toString uid) = none) :
    get_user_data adminIds modIds lang now uid (some users) =
      (.ok (defaultUserData adminIds modIds lang uid now),
       some (users ++ [(toString uid, defaultUserData adminIds modIds lang uid now)]),
       true) ∧
    get_user_data adminIds modIds lang now2 uid
        (some (users ++ [(toString uid, defaultUserData adminIds modIds lang uid now)])) =
      (.ok (defaultUserData adminIds modIds lang uid now),
       some (users ++ [(toString uid, defaultUserData adminIds modIds lang uid now)]),
       false) ∧
    (defaultUserData adminIds modIds lang uid now).role =
      (if uid ∈ adminIds then "admin" else if uid ∈ modIds then "moderator" else "user") ∧
    get_user_data adminIds modIds lang now uid none =
      (.fallback (minimalUserData lang now), none, false) ∧
    get_all_users none = [] := by
  refine ⟨?_, ?_, rfl, rfl, rfl⟩
  · simp [get_user_data, hfresh]
  · simp [get_user_data, storeLookup_append_fresh users (toString uid) _ hfresh]

/-- Witness for C5: user id 42 is absent from the empty store. -/
theorem C5_lazy_default_record_witness :
    storeLookup [] (toString (42 : Int)) = none ∧
    get_user_data [3] [] "en" 100 42 (some []) =
      (.ok (defaultUserData [3] [] "en" 42 100),
       some ([] ++ [(toString (42 : Int), defaultUserData [3] [] "en" 42 100)]),
       true) ∧
    get_all_users none = [] :=
  ⟨rfl, (C5_lazy_default_record [3] [] "en" 100 200 42 [] rfl).1,
   (C5_lazy_default_record [3] [] "en" 100 200 42 [] rfl).2.2.2.2⟩

/-- In the broadcast loop the successes are the recipients whose send went
through, the failures are the rest, every recipient is attempted once in
stored order, and a pause follows each successful send. -/
theorem broadcast_loop_spec (sendOk : String → Bool) (uids : List String) :
    (broadcast_loop sendOk uids).2.1 = (uids.filter (fun u => sendOk u)).length ∧
    (broadcast_loop sendOk uids).2.2 = (uids.filter (fun u => ! sendOk u)).length ∧
    (broadcast_loop sendOk uids).1.filterMap attemptId = uids ∧
    (broadcast_loop sendOk uids).1.count BAction.pause = (broadcast_loop sendOk uids).2.1 := by
  induction uids with
  | nil => refine ⟨rfl, rfl, rfl, rfl⟩
  | cons u us ih =>
    by_cases h : sendOk u <;>
      simp [broadcast_loop, h, List.filter, attemptId, List.count_cons, ih.1, ih.2.1, ih.2.2.1,
        ih.2.2.2]

/-- Splitting a list by a boolean predicate preserves the total length. -/
theorem filter_length_split (p : String → Bool) (uids : List String) :
    (uids.filter (fun u => p u)).length + (uids.filter (fun u => ! p u)).length =
      uids.length := by
  induction uids with
  | nil => rfl
  | cons u us ih => by_cases h : p u <;> simp [List.filter, h] <;> omega

/-- C9: a broadcast over N stored recipients of which K sends fail attempts
every recipient sequentially in stored order (a failure never blocks later
recipients), pauses after each successful send, and records and reports
`total = N`, `successful = N - K`, `failed = K`. -/
theorem C9_broadcast_tallies (sendOk : String → Bool) (admin_id now : Int)
    (message : List Char) (userIds : List String) (log : List BroadcastRecord) :
    (broadcast_message_core sendOk admin_id now message userIds log).2.2 =
      (userIds.length,
       userIds.length - (userIds.filter (fun u => ! sendOk u)).length,
       (userIds.filter (fun u => ! sendOk u)).length) ∧
    (broadcast_message_core sendOk admin_id now message userIds log).2.1 =
      log ++ [{ admin_id := admin_id, timestamp := now, message := message
                total_recipients := userIds.length
                successful := userIds.length - (userIds.filter (fun u => ! sendOk u)).length
                failed := (userIds.filter (fun u => ! sendOk u)).length }] ∧
    (broadcast_message_core sendOk admin_id now message userIds log).1.filterMap attemptId =
      userIds ∧
    (broadcast_message_core sendOk admin_id now message userIds log).1.count BAction.pause =
      userIds.length - (userIds.filter (fun u => ! sendOk u)).length := by
  have hs := broadcast_loop_spec sendOk userIds
  have hlen := filter_length_split sendOk userIds
  have hsucc : (broadcast_loop sendOk userIds).2.1 =
      userIds.length - (userIds.filter (fun u => ! sendOk u)).length := by
    rw [hs.1]; omega
  refine ⟨?_, ?_, ?_, ?_⟩
  · simp only [broadcast_message_core, hsucc, hs.2.1]
  · simp only [broadcast_message_core, hsucc, hs.2.1]
  · simpa only [broadcast_message_core] using hs.2.2.1
  · simp only [broadcast_message_core, hs.2.2.2, hsucc]

/-- C4: in the EDIT_VALUE state the received text is validated against the
chosen field's constraint (bio at most 500 characters, location at most
100, interests split on commas with items trimmed, empties dropped, at most
10 items of at most 30 characters); any violation replies with the specific
error and stays in EDIT_VALUE with the stored record untouched and nothing
partially saved, while success persists the field (interests in the given
order), stamps `profile.last_activity`, and returns to PROFILE.  A bio of
exactly 500 characters falls under the acceptance case; an 11-item
interests list falls under the rejection case. -/
theorem C4_profile_edit_validation (now : Int) (text : List Char) (d : UserData) :
    (500 < (trimCh text).length →
      save_profile_edit now (some "bio") text d = (d, EDIT_VALUE, ["bio_too_long"], false)) ∧
    ((trimCh text).length ≤ 500 →
      save_profile_edit now (some "bio") text d =
        ({ d with profile := { d.profile with bio := trimCh text, last_activity := now } },
         PROFILE, ["bio_updated"], true)) ∧
    (100 < (trimCh text).length →
      save_profile_edit now (some "location") text d =
        (d, EDIT_VALUE, ["location_too_long"], false)) ∧
    ((trimCh text).length ≤ 100 →
      save_profile_edit now (some "location") text d =
        ({ d with profile := { d.profile with location := trimCh text, last_activity := now } },
         PROFILE, ["location_updated"], true)) ∧
    (10 < (parseInterests (trimCh text)).length →
      save_profile_edit now (some "interests") text d =
        (d, EDIT_VALUE, ["too_many_interests"], false)) ∧
    ((parseInterests (trimCh text)).length ≤ 10 →
      (parseInterests (trimCh text)).any (fun i => 30 < i.length) = true →
      save_profile_edit now (some "interests") text d =
        (d, EDIT_VALUE, ["interest_too_long"], false)) ∧
    ((parseInterests (trimCh text)).length ≤ 10 →
      (parseInterests (trimCh text)).any (fun i => 30 < i.length) = false →
      save_profile_edit now (some "interests") text d =
        ({ d with profile :=
            { d.profile with interests := parseInterests (trimCh text), last_activity := now } },
         PROFILE, ["interests_updated"], true)) := by
  refine ⟨?_, ?_, ?_, ?_, ?_, ?_, ?_⟩ <;> intro h
  · simp [save_profile_edit, h]
  · simp [save_profile_edit, Nat.not_lt.mpr h]
  · simp [save_profile_edit, h]
  · simp [save_profile_edit, Nat.not_lt.mpr h]
  · simp [save_profile_edit, h]
  · intro hany; simp [save_profile_edit, Nat.not_lt.mpr h, hany]
  · intro hany; simp [save_profile_edit, Nat.not_lt.mpr h, hany]

/-- Witness for C4: a 501-character bio is rejected with the record
untouched, a 500-character bio is stored, and an 11-item interests list is
rejected in full. -/
theorem C4_profile_edit_validation_witness :
    save_profile_edit 5 (some "bio") (List.replicate 501 'a') sampleUser =
      (sampleUser, EDIT_VALUE, ["bio_too_long"], false) ∧
    save_profile_edit 5 (some "bio") (List.replicate 500 'a') sampleUser =
      ({ sampleUser with profile :=
          { sampleUser.profile with bio := trimCh (List.replicate 500 'a'), last_activity := 5 } },
       PROFILE, ["bio_updated"], true) ∧
    save_profile_edit 5 (some "interests") "a,b,c,d,e,f,g,h,i,j,k".data sampleUser =
      (sampleUser, EDIT_VALUE, ["too_many_interests"], false) :=
  ⟨(C4_profile_edit_validation 5 (List.replicate 501 'a') sampleUser).1 (by decide),
   (C4_profile_edit_validation 5 (List.replicate 500 'a') sampleUser).2.1 (by decide),
   (C4_profile_edit_validation 5 "a,b,c,d,e,f,g,h,i,j,k".data sampleUser).2.2.2.2.1 (by decide)⟩

/-- Inside the window no reset happens: the call accepts and increments
exactly when the stored count is below the limit. -/
theorem check_rate_limit_in_window (L : Nat) (W t0 t : Int) (c : Nat) (h : t - t0 ≤ W) :
    check_rate_limit L W t ⟨c, t0⟩ =
      if c < L then (true, ⟨c + 1, t0⟩) else (false, ⟨c, t0⟩) := by
  simp only [check_rate_limit, if_neg (not_lt.mpr h)]
  by_cases hc : c < L
  · rw [if_pos hc, if_neg (by omega : ¬ L ≤ c)]
  · rw [if_neg hc, if_pos (by omega : L ≤ c)]

/-- A run of messages all inside the window starting from count `c`: the
`i`-th message is accepted exactly when `c + i` is below the limit, and the
stored counter ends at the saturated value with `last_reset` untouched. -/
theorem rateRun_in_window (L : Nat) (W t0 : Int) (c : Nat) (ts : List Int)
    (hin : ∀ t ∈ ts, t - t0 ≤ W) :
    rateRun L W ⟨c, t0⟩ ts =
      ((List.range ts.length).map (fun i => decide (c + i < L)),
       ⟨max c (min (c + ts.length) L), t0⟩) := by
  induction ts generalizing c with
  | nil =>
    simp only [rateRun, List.length_nil, List.range_zero, List.map_nil]
    have : max c (min (c + 0) L) = c := by omega
    rw [this]
  | cons t ts ih =>
    have ht : t - t0 ≤ W := hin t (by simp)
    have hts : ∀ x ∈ ts, x - t0 ≤ W := fun x hx => hin x (by simp [hx])
    simp only [rateRun, check_rate_limit_in_window L W t0 t c ht]
    by_cases hc : c < L
    · rw [if_pos hc, ih (c + 1) hts]
      have hlist : decide (c + 1 ≤ L) :: (List.range ts.length).map (fun i => decide (c + 1 + i < L)) =
          (List.range (t :: ts).length).map (fun i => decide (c + i < L)) := by
        rw [List.length_cons, List.range_succ_eq_map, List.map_cons, List.map_map]
        have h0 : decide (c + 1 ≤ L) = decide (c + 0 < L) := by
          rw [decide_eq_decide]; omega
        have hfun : ((fun i => decide (c + i < L)) ∘ Nat.succ) =
            (fun i => decide (c + 1 + i < L)) := by
          funext i
          simp only [Function.comp]
          rw [decide_eq_decide]
          omega
        rw [h0, hfun]
      have hcnt : max (c + 1) (min (c + 1 + ts.length) L) =
          max c (min (c + (t :: ts).length) L) := by
        simp only [List.length_cons]; omega
      simp only [← hlist, hcnt]
      have : decide (c + 1 ≤ L) = true := by simp; omega
      simp [this]
    · rw [if_neg hc, ih c hts]
      have hlist : false :: (List.range ts.length).map (fun i => decide (c + i < L)) =
          (List.range (t :: ts).length).map (fun i => decide (c + i < L)) := by
        rw [List.length_cons, List.range_succ_eq_map, List.map_cons, List.map_map]
        have h0 : false = decide (c + 0 < L) :=
          (decide_eq_false (by omega : ¬ (c + 0 < L))).symm
        have hfun : ((fun i => decide (c + i < L)) ∘ Nat.succ) =
            (fun i => decide (c + i < L)) := by
          funext i
          simp only [Function.comp]
          rw [decide_eq_decide]
          omega
        rw [h0, hfun]
      have hcnt : max c (min (c + ts.length) L) =
          max c (min (c + (t :: ts).length) L) := by
        simp only [List.length_cons]; omega
      simp only [← hlist, hcnt]

/-- The verdicts of `L + 1` in-window messages from a fresh counter: `L`
accepts followed by one reject. -/
theorem range_map_decide_lt (L : Nat) :
    (List.range (L + 1)).map (fun i => decide (i < L)) = List.replicate L true ++ [false] := by
  induction L with
  | zero => rfl
  | succ n ih =>
    rw [List.range_succ_eq_map, List.map_cons, List.map_map]
    have hfun : ((fun i => decide (i < n + 1)) ∘ Nat.succ) = (fun i => decide (i < n)) := by
      funext i
      simp only [Function.comp]
      rw [decide_eq_decide]
      omega
    rw [hfun, ih]
    simp [List.replicate_succ]

/-- C1: the per-message gate is a fixed-window counter with the limit and
window chosen by role tier (`admin` for admins, `default` for everyone else
including moderators): from a fresh window, `L + 1` messages inside the
window produce exactly `L` accepts followed by one reject, the reject does
not change the stored counter (it ends at `L` with `last_reset` untouched),
and a message arriving more than `W` seconds past the window start resets
the counter and is accepted. -/
theorem C1_fixed_window_rate_limiter (L : Nat) (W t0 tnext : Int) (times : List Int)
    (adminIds : List Int) (uid : Int) (d : UserData)
    (hL : 1 ≤ L) (hlen : times.length = L + 1)
    (hin : ∀ t ∈ times, t - t0 ≤ W) (hnext : W < tnext - t0) :
    (rateRun L W ⟨0, t0⟩ times).1 = List.replicate L true ++ [false] ∧
    (rateRun L W ⟨0, t0⟩ times).2 = ⟨L, t0⟩ ∧
    check_rate_limit L W tnext ⟨L, t0⟩ = (true, ⟨1, tnext⟩) ∧
    (is_admin adminIds uid d = true → rate_limit_tier adminIds uid d = "admin") ∧
    (is_admin adminIds uid d = false → rate_limit_tier adminIds uid d = "default") ∧
    (d.role = "moderator" → uid ∉ adminIds → rate_limit_tier adminIds uid d = "default") := by
  have hrun := rateRun_in_window L W t0 0 times hin
  refine ⟨?_, ?_, ?_, ?_, ?_, ?_⟩
  · rw [hrun]
    have hfun : (fun i => decide (0 + i < L)) = (fun i => decide (i < L)) := by
      funext i
      rw [decide_eq_decide]
      omega
    simp only [hlen, hfun]
    exact range_map_decide_lt L
  · rw [hrun]
    have : max 0 (min (0 + times.length) L) = L := by omega
    rw [this]
  · simp only [check_rate_limit]
    rw [if_pos hnext, if_neg (by omega : ¬ L ≤ 0)]
  · intro h
    simp [rate_limit_tier, h]
  · intro h
    simp [rate_limit_tier, h]
  · intro hrole hmem
    simp [rate_limit_tier, is_admin, hrole, hmem]

/-- Witness for C1: limit 2, window 60s, messages at 0, 10 and 60 seconds
(accept, accept, reject), then one at 61 seconds which resets and is
accepted; a moderator record gets the `default` tier. -/
theorem C1_fixed_window_rate_limiter_witness :
    (rateRun 2 60 ⟨0, 0⟩ [0, 10, 60]).1 = List.replicate 2 true ++ [false] ∧
    (rateRun 2 60 ⟨0, 0⟩ [0, 10, 60]).2 = ⟨2, 0⟩ ∧
    check_rate_limit 2 60 61 ⟨2, 0⟩ = (true, ⟨1, 61⟩) ∧
    rate_limit_tier [] 42 { sampleUser with role := "moderator" } = "default" := by
  have h := C1_fixed_window_rate_limiter 2 60 0 61 [0, 10, 60] [] 42
    { sampleUser with role := "moderator" }
    (by decide) (by decide) (by decide) (by decide)
  exact ⟨h.1, h.2.1, h.2.2.1, h.2.2.2.2.2 rfl (by decide)⟩

/-- C7: `parse_time` maps `"in <N> <unit>"` (unit matched case-insensitively
by substring, in the source's minute/hour/day/week order) to now plus N of
that unit, maps `"at <HH:MM>"` (24-hour, in-range) to today's HH:MM rolled
to the next day when already past, and maps every other input to now plus
one hour — including every malformed `in` form (too few tokens, amount not
an integer) and every malformed `at` form (not exactly two colon-separated
pieces, hour or minute not an integer, hour or minute out of range, where
the source's `datetime.replace` raises the caught `ValueError`); and
`remind_me` schedules a one-shot job at the computed delay and appends a
reminder record exactly when the parsed time is strictly in the future,
otherwise replies with an error and schedules and records nothing. -/
theorem C7_time_parse_and_gate (now : Int) :
    (∀ s amt unit rest n, isPrefixCh "in ".data s = true →
      pySplitWs (s.drop 3) = amt :: unit :: rest →
      parsePyInt amt = some n →
      ((containsCh (lowerCh unit) "minute".data = true →
          parse_time now s = now + 60 * n) ∧
       (containsCh (lowerCh unit) "minute".data = false →
          containsCh (lowerCh unit) "hour".data = true →
          parse_time now s = now + 3600 * n) ∧
       (containsCh (lowerCh unit) "minute".data = false →
          containsCh (lowerCh unit) "hour".data = false →
          containsCh (lowerCh unit) "day".data = true →
          parse_time now s = now + 86400 * n) ∧
       (containsCh (lowerCh unit) "minute".data = false →
          containsCh (lowerCh unit) "hour".data = false →
          containsCh (lowerCh unit) "day".data = false →
          containsCh (lowerCh unit) "week".data = true →
          parse_time now s = now + 604800 * n) ∧
       (containsCh (lowerCh unit) "minute".data = false →
          containsCh (lowerCh unit) "hour".data = false →
          containsCh (lowerCh unit) "day".data = false →
          containsCh (lowerCh unit) "week".data = false →
          parse_time now s = now + 3600))) ∧
    (∀ s amt unit rest, isPrefixCh "in ".data s = true →
      pySplitWs (s.drop 3) = amt :: unit :: rest →
      parsePyInt amt = none →
      parse_time now s = now + 3600) ∧
    (∀ s, isPrefixCh "in ".data s = true →
      pySplitWs (s.drop 3) = [] →
      parse_time now s = now + 3600) ∧
    (∀ s x, isPrefixCh "in ".data s = true →
      pySplitWs (s.drop 3) = [x] →
      parse_time now s = now + 3600) ∧
    (∀ s hs ms h m, isPrefixCh "in ".data s = false →
      isPrefixCh "at ".data s = true →
      pySplitChar ':' (trimCh (s.drop 3)) = [hs, ms] →
      parsePyInt hs = some h → parsePyInt ms = some m →
      0 ≤ h → h < 24 → 0 ≤ m → m < 60 →
      parse_time now s =
        (if dayStart now + 3600 * h + 60 * m < now
         then dayStart now + 3600 * h + 60 * m + 86400
         else dayStart now + 3600 * h + 60 * m)) ∧
    (∀ s parts, isPrefixCh "in ".data s = false →
      isPrefixCh "at ".data s = true →
      pySplitChar ':' (trimCh (s.drop 3)) = parts →
      parts.length ≠ 2 →
      parse_time now s = now + 3600) ∧
    (∀ s hs ms, isPrefixCh "in ".data s = false →
      isPrefixCh "at ".data s = true →
      pySplitChar ':' (trimCh (s.drop 3)) = [hs, ms] →
      parsePyInt hs = none →
      parse_time now s = now + 3600) ∧
    (∀ s hs ms h, isPrefixCh "in ".data s = false →
      isPrefixCh "at ".data s = true →
      pySplitChar ':' (trimCh (s.drop 3)) = [hs, ms] →
      parsePyInt hs = some h → parsePyInt ms = none →
      parse_time now s = now + 3600) ∧
    (∀ s hs ms h m, isPrefixCh "in ".data s = false →
      isPrefixCh "at ".data s = true →
      pySplitChar ':' (trimCh (s.drop 3)) = [hs, ms] →
      parsePyInt hs = some h → parsePyInt ms = some m →
      ¬ (0 ≤ h ∧ h < 24 ∧ 0 ≤ m ∧ m < 60) →
      parse_time now s = now + 3600) ∧
    (∀ s, isPrefixCh "in ".data s = false →
      isPrefixCh "at ".data s = false →
      parse_time now s = now + 3600) ∧
    (∀ uid a0 rest w,
      (now < parse_time now a0 →
        remind_me now uid (a0 :: rest) w =
          { w with
              jobs := w.jobs ++ [(parse_time now a0 - now,
                if rest = [] then "Reminder!".data else joinSpace rest)]
              replies := w.replies ++ ["reminder_set"]
              reminders := w.reminders ++
                [{ user_id := uid, time := parse_time now a0
                   message := if rest = [] then "Reminder!".data else joinSpace rest
                   created_at := now }] }) ∧
      (¬ now < parse_time now a0 →
        remind_me now uid (a0 :: rest) w =
          { w with replies := w.replies ++ ["reminder_future_error"] })) := by
  refine ⟨?_, ?_, ?_, ?_, ?_, ?_, ?_, ?_, ?_, ?_, ?_⟩
  · intro s amt unit rest n hpre hsplit hamt
    refine ⟨?_, ?_, ?_, ?_, ?_⟩
    · intro h1
      simp [parse_time, hpre, hsplit, hamt, h1]
    · intro h1 h2
      simp [parse_time, hpre, hsplit, hamt, h1, h2]
    · intro h1 h2 h3
      simp [parse_time, hpre, hsplit, hamt, h1, h2, h3]
    · intro h1 h2 h3 h4
      simp [parse_time, hpre, hsplit, hamt, h1, h2, h3, h4]
    · intro h1 h2 h3 h4
      simp [parse_time, hpre, hsplit, hamt, h1, h2, h3, h4]
  · intro s amt unit rest hpre hsplit hamt
    simp [parse_time, hpre, hsplit, hamt]
  · intro s hpre hsplit
    simp [parse_time, hpre, hsplit]
  · intro s x hpre hsplit
    simp [parse_time, hpre, hsplit]
  · intro s hs ms h m hnin hat hsplit hh hm hh0 hh24 hm0 hm60
    simp only [parse_time, hnin, Bool.false_eq_true, if_false, hat, if_true, hsplit, hh, hm]
    rw [if_pos ⟨hh0, hh24, hm0, hm60⟩]
  · intro s parts hnin hat hsplit hlen
    cases parts with
    | nil => simp [parse_time, hnin, hat, hsplit]
    | cons a tail =>
      cases tail with
      | nil => simp [parse_time, hnin, hat, hsplit]
      | cons b tail2 =>
        cases tail2 with
        | nil => simp at hlen
        | cons c rest2 => simp [parse_time, hnin, hat, hsplit]
  · intro s hs ms hnin hat hsplit hh
    simp [parse_time, hnin, hat, hsplit, hh]
  · intro s hs ms h hnin hat hsplit hh hm
    simp [parse_time, hnin, hat, hsplit, hh, hm]
  · intro s hs ms h m hnin hat hsplit hh hm hrange
    simp only [parse_time, hnin, Bool.false_eq_true, if_false, hat, if_true, hsplit, hh, hm]
    rw [if_neg hrange]
  · intro s hnin hnat
    simp [parse_time, hnin, hnat]
  · intro uid a0 rest w
    constructor
    · intro hfut
      simp [remind_me, hfut]
    · intro hfut
      simp [remind_me, hfut]

/-- Witness for C7: "in 30 minutes" at time 0 is 1800; "at 09:00" at 14:00
local (50400) is next-day 09:00 (118800); "hello", "at 9", "at 9:30:00",
"at x:30", "at 9:xx" and "at 25:00" all fall back to 3600;
"/remindme in 30 minutes Call-mom" schedules a job with delay 1800; a
negative relative time produces the error and schedules nothing. -/
theorem C7_time_parse_and_gate_witness :
    parse_time 0 "in 30 minutes".data = 1800 ∧
    parse_time 50400 "at 09:00".data = 118800 ∧
    parse_time 0 "hello".data = 3600 ∧
    parse_time 0 "at 9".data = 3600 ∧
    parse_time 0 "at 9:30:00".data = 3600 ∧
    parse_time 0 "at x:30".data = 3600 ∧
    parse_time 0 "at 9:xx".data = 3600 ∧
    parse_time 0 "at 25:00".data = 3600 ∧
    remind_me 0 7 ["in 30 minutes".data, "x".data] sampleWorld =
      { sampleWorld with
          jobs := sampleWorld.jobs ++ [(1800, joinSpace ["x".data])]
          replies := sampleWorld.replies ++ ["reminder_set"]
          reminders := sampleWorld.reminders ++
            [{ user_id := 7, time := 1800, message := joinSpace ["x".data], created_at := 0 }] } ∧
    remind_me 0 7 ["in -5 minutes".data] sampleWorld =
      { sampleWorld with replies := sampleWorld.replies ++ ["reminder_future_error"] } := by
  have h := C7_time_parse_and_gate 0
  have h50400 := C7_time_parse_and_gate 50400
  have p1 : parse_time 0 "in 30 minutes".data = 1800 := by
    have := (h.1 "in 30 minutes".data "30".data "minutes".data [] 30
      (by decide) (by decide) (by decide)).1 (by decide)
    simpa using this
  have p2 : parse_time 50400 "at 09:00".data = 118800 := by
    have := h50400.2.2.2.2.1 "at 09:00".data "09".data "00".data 9 0
      (by decide) (by decide) (by decide) (by decide) (by decide)
      (by decide) (by decide) (by decide) (by decide)
    simpa using this
  have p3 : parse_time 0 "hello".data = 3600 := by
    have := h.2.2.2.2.2.2.2.2.2.1 "hello".data (by decide) (by decide)
    simpa using this
  have p4a : parse_time 0 "at 9".data = 3600 := by
    have := h.2.2.2.2.2.1 "at 9".data ["9".data]
      (by decide) (by decide) (by decide) (by decide)
    simpa using this
  have p4b : parse_time 0 "at 9:30:00".data = 3600 := by
    have := h.2.2.2.2.2.1 "at 9:30:00".data ["9".data, "30".data, "00".data]
      (by decide) (by decide) (by decide) (by decide)
    simpa using this
  have p4c : parse_time 0 "at x:30".data = 3600 := by
    have := h.2.2.2.2.2.2.1 "at x:30".data "x".data "30".data
      (by decide) (by decide) (by decide) (by decide)
    simpa using this
  have p4d : parse_time 0 "at 9:xx".data = 3600 := by
    have := h.2.2.2.2.2.2.2.1 "at 9:xx".data "9".data "xx".data 9
      (by decide) (by decide) (by decide) (by decide) (by decide)
    simpa using this
  have p4e : parse_time 0 "at 25:00".data = 3600 := by
    have := h.2.2.2.2.2.2.2.2.1 "at 25:00".data "25".data "00".data 25 0
      (by decide) (by decide) (by decide) (by decide) (by decide) (by decide)
    simpa using this
  have p5 : parse_time 0 "in -5 minutes".data = -300 := by
    have := (h.1 "in -5 minutes".data "-5".data "minutes".data [] (-5)
      (by decide) (by decide) (by decide)).1 (by decide)
    simpa using this
  refine ⟨p1, p2, p3, p4a, p4b, p4c, p4d, p4e, ?_, ?_⟩
  · have := (h.2.2.2.2.2.2.2.2.2.2 7 "in 30 minutes".data ["x".data] sampleWorld).1
      (by rw [p1]; decide)
    rw [p1] at this
    simpa using this
  · have := (h.2.2.2.2.2.2.2.2.2.2 7 "in -5 minutes".data [] sampleWorld).2
      (by rw [p5]; decide)
    simpa using this

/-- C2 evaluation: at the command's own documented example input
`/remindme in 30 minutes Call mom`, only `args[0]` (the word "in") reaches
`parse_time`, which falls back to now + 1 hour, and the message becomes
"30 minutes Call mom"; in the pending-capture flow the time string is
rebuilt as "in in 30", which also falls back to now + 1 hour with message
"minutes Call mom"; and `/remindme at 09:00` issued at 14:00 local
schedules now + 1 hour with message "09:00" instead of next-day 09:00. -/
theorem C2_remindme_documented_example_eval :
    parse_time 0 "in".data = 3600 ∧
    parse_time 0 "in in 30".data = 3600 ∧
    remind_me 0 7 ["in".data, "30".data, "minutes".data, "Call".data, "mom".data] sampleWorld =
      { sampleWorld with
          jobs := [(3600, "30 minutes Call mom".data)]
          replies := ["reminder_set"]
          reminders := [{ user_id := 7, time := 3600
                          message := "30 minutes Call mom".data, created_at := 0 }] } ∧
    handle_reminder 0 7 "in 30 minutes Call mom".data
        { sampleWorld with user := { sampleUser with setting_reminder := true } } =
      { sampleWorld with
          user := { sampleUser with setting_reminder := false }
          jobs := [(3600, "minutes Call mom".data)]
          replies := ["reminder_set"]
          reminders := [{ user_id := 7, time := 3600
                          message := "minutes Call mom".data, created_at := 0 }]
          userWrites := [{ sampleUser with setting_reminder := false }] } ∧
    remind_me 50400 7 ["at".data, "09:00".data] sampleWorld =
      { sampleWorld with
          jobs := [(3600 + 50400 - 50400, "09:00".data)]
          replies := ["reminder_set"]
          reminders := [{ user_id := 7, time := 50400 + 3600
                          message := "09:00".data, created_at := 50400 }] } := by
  refine ⟨by decide, by decide, by decide, by decide, by decide⟩

/-- `handle_feedback` persists exactly one record: the stored one with the
flag cleared. -/
theorem handle_feedback_userWrites (adminIds : List Int) (now uid : Int)
    (uname : String) (text : List Char) (w : World) :
    (handle_feedback adminIds now uid uname text w).userWrites =
      w.userWrites ++ [{ w.user with waiting_for_feedback := false }] := rfl

/-- `handle_reminder` only ever appends to the write log. -/
theorem handle_reminder_userWrites (now uid : Int) (text : List Char) (w : World) :
    ∃ tail, (handle_reminder now uid text w).userWrites = w.userWrites ++ tail := by
  unfold handle_reminder
  by_cases h1 : ¬ w.user.setting_reminder
  · rw [if_pos h1]
    exact ⟨[], by simp⟩
  · rw [if_neg h1]
    by_cases h2 : (pySplitSpace2 (trimCh text)).length < 2
    · rw [if_pos h2]
      exact ⟨[], by simp⟩
    · rw [if_neg h2]
      refine ⟨[{ w.user with setting_reminder := false }], ?_⟩
      simp only [writeUser, apply_ite World.userWrites, apply_ite World.user, ite_self]

/-- Every branch after the gate only ever appends to the write log. -/
theorem dispatch_branches_userWrites (adminIds : List Int) (now uid : Int)
    (uname chatType : String) (botMentioned : Bool) (text : List Char)
    (d1 : UserData) (w2 : World) :
    ∃ tail,
      (dispatch_branches adminIds now uid uname chatType botMentioned text d1 w2).userWrites =
        w2.userWrites ++ tail := by
  unfold dispatch_branches
  split_ifs
  · exact ⟨[], by simp⟩
  · exact ⟨[], by simp⟩
  · exact ⟨[], by simp⟩
  · exact ⟨_, handle_feedback_userWrites adminIds now uid uname text w2⟩
  · exact handle_reminder_userWrites now uid text w2
  · exact ⟨[], by simp⟩
  · exact ⟨[], by simp⟩
  · exact ⟨[], by simp⟩

/-- When the incoming write log already starts with `D`, every post-gate
branch keeps `D` as the first write. -/
theorem dispatch_branches_head (adminIds : List Int) (now uid : Int)
    (uname chatType : String) (botMentioned : Bool) (text : List Char)
    (D : UserData) (w2 : World) (h : w2.userWrites.head? = some D) :
    (dispatch_branches adminIds now uid uname chatType botMentioned text D
      w2).userWrites.head? = some D := by
  obtain ⟨tail, htail⟩ := dispatch_branches_userWrites adminIds now uid uname chatType
    botMentioned text D w2
  rw [htail]
  cases hlist : w2.userWrites with
  | nil => rw [hlist] at h; simp at h
  | cons x xs =>
    rw [hlist] at h
    simp only [List.head?_cons, Option.some.injEq] at h
    simp [h]

/-- C10: for every non-empty plain-text message in a non-channel chat the
dispatcher persists the record with `last_seen` updated and
`stats.messages_sent` incremented — and the rate data untouched — as its
first write, before the rate-limit gate runs; when the gate rejects, that
is the only write, so the rejected message still incremented the persisted
counter while the stored `rate_limit.count` and `rate_limit.last_reset`
stay exactly as they were. -/
theorem C10_counter_persisted_before_gate (cfg : RateConfig) (adminIds : List Int)
    (now : Int) (uid : Int) (uname : String) (chatType : String) (botMentioned : Bool)
    (text : List Char) (w : World)
    (htext : text ≠ []) (hchan : chatType ≠ "channel") (hw : w.userWrites = []) :
    (handle_message cfg adminIds now uid uname chatType botMentioned text w).userWrites.head? =
      some { w.user with
              last_seen := now,
              stats := { w.user.stats with messages_sent := w.user.stats.messages_sent + 1 } } ∧
    ({ w.user with
        last_seen := now,
        stats := { w.user.stats with messages_sent := w.user.stats.messages_sent + 1 } } :
      UserData).rate_limit = w.user.rate_limit ∧
    ((check_rate_limit_user cfg adminIds uid now
        { w.user with
            last_seen := now,
            stats := { w.user.stats with messages_sent := w.user.stats.messages_sent + 1 } }).1 =
        false →
      handle_message cfg adminIds now uid uname chatType botMentioned text w =
        { w with
            user := { w.user with
                       last_seen := now,
                       stats := { w.user.stats with
                                   messages_sent := w.user.stats.messages_sent + 1 } },
            userWrites := [{ w.user with
                              last_seen := now,
                              stats := { w.user.stats with
                                          messages_sent := w.user.stats.messages_sent + 1 } }],
            replies := w.replies ++ ["rate_limit_warning"] }) := by
  have hcond : ¬ (text = [] ∨ chatType = "channel") := by
    push_neg
    exact ⟨htext, hchan⟩
  refine ⟨?_, rfl, ?_⟩
  · simp only [handle_message, if_neg hcond]
    split_ifs with hg
    · exact dispatch_branches_head _ _ _ _ _ _ _ _ _ (by simp [writeUser, hw])
    · simp [writeUser, hw]
  · intro hrej
    simp only [handle_message, if_neg hcond]
    rw [if_pos (by simp [hrej])]
    simp [writeUser, hw]

/-- Witness for C10: a throttled user (count 10 of 10 within the window) at
time 30; the message is rejected, yet the single persisted write carries
the incremented message counter and the untouched rate data. -/
theorem C10_counter_persisted_before_gate_witness :
    handle_message cfg0 [] 30 42 "u" "private" false "hi".data throttledWorld =
      { throttledWorld with
          user := { throttledWorld.user with
                     last_seen := 30,
                     stats := { throttledWorld.user.stats with
                                 messages_sent := throttledWorld.user.stats.messages_sent + 1 } },
          userWrites := [{ throttledWorld.user with
                            last_seen := 30,
                            stats := { throttledWorld.user.stats with
                                        messages_sent :=
                                          throttledWorld.user.stats.messages_sent + 1 } }],
          replies := throttledWorld.replies ++ ["rate_limit_warning"] } :=
  (C10_counter_persisted_before_gate cfg0 [] 30 42 "u" "private" false "hi".data throttledWorld
    (by decide) (by decide) rfl).2.2 (by decide)

/-- C6 counterexample: `/remindme` never sets `setting_reminder` (it does
not write the user record at all), so the reminder half of the claim's
"issuing the command sets the corresponding transient flag and persists
it" fails; moreover with chat mode on, a pending feedback flag is ignored
— the AI-chat branch consumes the message before the pending-flow checks,
so the interception is not "before the AI-chat pass-through". -/
theorem C6_capture_flow_counterexample :
    (remind_me 0 42 [] sampleWorld).user.setting_reminder = false ∧
    (remind_me 0 42 [] sampleWorld).userWrites = [] ∧
    (remind_me 0 42 ["in 5 minutes".data] sampleWorld).user.setting_reminder = false ∧
    (remind_me 0 42 ["in 5 minutes".data] sampleWorld).userWrites = [] ∧
    (handle_message cfg0 [] 5 42 "u" "private" false "hello".data chatFeedbackWorld).feedbacks =
      [] ∧
    (handle_message cfg0 [] 5 42 "u" "private" false
        "hello".data chatFeedbackWorld).user.waiting_for_feedback = true ∧
    (handle_message cfg0 [] 5 42 "u" "private" false "hello".data chatFeedbackWorld).replies =
      ["ai_response"] := by
  refine ⟨by decide, by decide, by decide, by decide, by decide, by decide, by decide⟩

/-- Inserting a key that is not present appends one entry at the end,
overwriting nothing. -/
theorem dictInsert_fresh (xs : List (String × FeedbackEntry)) (k : String) (v : FeedbackEntry)
    (h : k ∉ xs.map Prod.fst) :
    dictInsert xs k v = xs ++ [(k, v)] := by
  induction xs with
  | nil => rfl
  | cons p rest ih =>
    obtain ⟨k', v'⟩ := p
    simp only [List.map_cons, List.mem_cons] at h
    push_neg at h
    have hne : ¬ k' = k := fun he => h.1 he.symm
    simp [dictInsert, hne, ih h.2]

/-- The record stored by the rate-limit gate differs from its input only in
`rate_limit`: the `setting_reminder` flag is untouched. -/
theorem crlu_setting_reminder (cfg : RateConfig) (adminIds : List Int) (uid now : Int)
    (d : UserData) :
    ((check_rate_limit_user cfg adminIds uid now d).2).setting_reminder =
      d.setting_reminder := by
  simp only [check_rate_limit_user, apply_ite UserData.setting_reminder, ite_self]

/-- The record stored by the rate-limit gate keeps `waiting_for_feedback`
untouched. -/
theorem crlu_waiting_for_feedback (cfg : RateConfig) (adminIds : List Int) (uid now : Int)
    (d : UserData) :
    ((check_rate_limit_user cfg adminIds uid now d).2).waiting_for_feedback =
      d.waiting_for_feedback := by
  simp only [check_rate_limit_user, apply_ite UserData.waiting_for_feedback, ite_self]

/-- C6 (amended): `/feedback` sets `waiting_for_feedback` and persists it,
but no command ever sets `setting_reminder` — `/remindme` never touches
the stored record, so the reminder capture flow has no entry point.  When
chat mode is off, the next plain-text message in a private conversation is
intercepted before the generic fallback and consumed as the pending
input: the feedback flow clears its flag and persists it, appends exactly
one uniquely-keyed entry (fresh timestamp key, no overwriting), and
notifies every admin; the feedback check runs first, so when both flags
are set feedback wins and the reminder state is untouched.  A pending
reminder text with at least two space-separated tokens clears
`setting_reminder`; with fewer tokens the flow replies with a format error
and leaves the flag set. -/
theorem C6_capture_flows_amended (cfg : RateConfig) (adminIds : List Int) (now uid : Int)
    (uname : String) (text : List Char) (w : World) (D1 D2 : UserData)
    (htext : text ≠ [])
    (hd1 : D1 = { w.user with
                   last_seen := now,
                   stats := { w.user.stats with
                               messages_sent := w.user.stats.messages_sent + 1 } })
    (hd2 : D2 = (check_rate_limit_user cfg adminIds uid now D1).2)
    (hgate : (check_rate_limit_user cfg adminIds uid now D1).1 = true) :
    (feedback_command w).user.waiting_for_feedback = true ∧
    (feedback_command w).userWrites =
      w.userWrites ++ [{ w.user with waiting_for_feedback := true }] ∧
    (∀ args, (remind_me now uid args w).user = w.user ∧
             (remind_me now uid args w).userWrites = w.userWrites) ∧
    (toString now ∉ w.feedbacks.map Prod.fst →
      dictInsert w.feedbacks (toString now)
          { user_id := uid, username := uname, text := text, timestamp := now } =
        w.feedbacks ++
          [(toString now, { user_id := uid, username := uname, text := text, timestamp := now })]) ∧
    (w.user.chat_mode = false → w.user.waiting_for_feedback = true →
      handle_message cfg adminIds now uid uname "private" false text w =
        { user := { D2 with waiting_for_feedback := false },
          feedbacks := dictInsert w.feedbacks (toString now)
            { user_id := uid, username := uname, text := text, timestamp := now },
          reminders := w.reminders,
          jobs := w.jobs,
          replies := w.replies ++ ["feedback_thanks"],
          notices := w.notices ++ adminIds.map (fun a => (a, "new_feedback")),
          userWrites := w.userWrites ++ [D1, D2, { D2 with waiting_for_feedback := false }] }) ∧
    (w.user.chat_mode = false → w.user.waiting_for_feedback = true →
      (handle_message cfg adminIds now uid uname "private" false text w).reminders =
        w.reminders ∧
      (handle_message cfg adminIds now uid uname "private" false text w).jobs = w.jobs ∧
      (handle_message cfg adminIds now uid uname "private" false
          text w).user.setting_reminder = w.user.setting_reminder) ∧
    (w.user.chat_mode = false → w.user.waiting_for_feedback = false →
      w.user.setting_reminder = true →
      ((pySplitSpace2 (trimCh text)).length < 2 →
        handle_message cfg adminIds now uid uname "private" false text w =
          { user := D2, feedbacks := w.feedbacks, reminders := w.reminders, jobs := w.jobs,
            replies := w.replies ++ ["reminder_format_error"], notices := w.notices,
            userWrites := w.userWrites ++ [D1, D2] } ∧
        (handle_message cfg adminIds now uid uname "private" false
            text w).user.setting_reminder = true) ∧
      (¬ (pySplitSpace2 (trimCh text)).length < 2 →
        (handle_message cfg adminIds now uid uname "private" false
            text w).user.setting_reminder = false)) := by
  subst hd1
  subst hd2
  have hcond : ¬ (text = [] ∨ ("private" : String) = "channel") := by
    push_neg
    exact ⟨htext, by decide⟩
  have h4 : w.user.chat_mode = false → w.user.waiting_for_feedback = true →
      handle_message cfg adminIds now uid uname "private" false text w =
        { user := { (check_rate_limit_user cfg adminIds uid now
              { w.user with
                  last_seen := now,
                  stats := { w.user.stats with
                              messages_sent := w.user.stats.messages_sent + 1 } }).2 with
              waiting_for_feedback := false },
          feedbacks := dictInsert w.feedbacks (toString now)
            { user_id := uid, username := uname, text := text, timestamp := now },
          reminders := w.reminders,
          jobs := w.jobs,
          replies := w.replies ++ ["feedback_thanks"],
          notices := w.notices ++ adminIds.map (fun a => (a, "new_feedback")),
          userWrites := w.userWrites ++
            [{ w.user with
                last_seen := now,
                stats := { w.user.stats with
                            messages_sent := w.user.stats.messages_sent + 1 } },
             (check_rate_limit_user cfg adminIds uid now
                { w.user with
                    last_seen := now,
                    stats := { w.user.stats with
                                messages_sent := w.user.stats.messages_sent + 1 } }).2,
             { (check_rate_limit_user cfg adminIds uid now
                  { w.user with
                      last_seen := now,
                      stats := { w.user.stats with
                                  messages_sent := w.user.stats.messages_sent + 1 } }).2 with
                waiting_for_feedback := false }] } := by
    intro hcm hwf
    simp only [handle_message, if_neg hcond]
    rw [if_neg (by simp [hgate])]
    simp only [dispatch_branches, writeUser, handle_feedback]
    simp [hcm, hwf, crlu_waiting_for_feedback]
  refine ⟨rfl, rfl, ?_, ?_, h4, ?_, ?_⟩
  · intro args
    cases args with
    | nil => exact ⟨rfl, rfl⟩
    | cons a rest =>
      by_cases hfut : now < parse_time now a
      · constructor <;> simp [remind_me, hfut]
      · constructor <;> simp [remind_me, hfut]
  · intro hfresh
    exact dictInsert_fresh w.feedbacks (toString now) _ hfresh
  · intro hcm hwf
    rw [h4 hcm hwf]
    refine ⟨rfl, rfl, ?_⟩
    simp [crlu_setting_reminder]
  · intro hcm hwf hsr
    constructor
    · intro hlen
      have heq : handle_message cfg adminIds now uid uname "private" false text w =
          { user := (check_rate_limit_user cfg adminIds uid now
                { w.user with
                    last_seen := now,
                    stats := { w.user.stats with
                                messages_sent := w.user.stats.messages_sent + 1 } }).2,
            feedbacks := w.feedbacks, reminders := w.reminders, jobs := w.jobs,
            replies := w.replies ++ ["reminder_format_error"], notices := w.notices,
            userWrites := w.userWrites ++
              [{ w.user with
                  last_seen := now,
                  stats := { w.user.stats with
                              messages_sent := w.user.stats.messages_sent + 1 } },
               (check_rate_limit_user cfg adminIds uid now
                  { w.user with
                      last_seen := now,
                      stats := { w.user.stats with
                                  messages_sent := w.user.stats.messages_sent + 1 } }).2] } := by
        simp only [handle_message, if_neg hcond]
        rw [if_neg (by simp [hgate])]
        simp only [dispatch_branches, writeUser, handle_reminder]
        simp [hcm, hwf, hsr, hlen, crlu_setting_reminder]
      refine ⟨heq, ?_⟩
      rw [heq]
      simp [crlu_setting_reminder, hsr]
    · intro hlen
      simp only [handle_message, if_neg hcond]
      rw [if_neg (by simp [hgate])]
      simp only [dispatch_branches, writeUser, handle_reminder]
      simp [hcm, hwf, hsr, hlen, crlu_setting_reminder, apply_ite World.user]

/-- Witness for the amended C6: a pending-feedback user's next private
message is consumed (flag cleared, thanks sent), and a pending-reminder
user sending a single-token message keeps the flag set. -/
theorem C6_capture_flows_amended_witness :
    (handle_message cfg0 [9] 5 42 "u" "private" false "yo".data
        { sampleWorld with
            user := { sampleUser with
                       waiting_for_feedback := true } }).user.waiting_for_feedback = false ∧
    (handle_message cfg0 [9] 5 42 "u" "private" false "yo".data
        { sampleWorld with
            user := { sampleUser with waiting_for_feedback := true } }).replies =
      ["feedback_thanks"] ∧
    (handle_message cfg0 [9] 5 42 "u" "private" false "hi".data
        { sampleWorld with
            user := { sampleUser with
                       setting_reminder := true } }).user.setting_reminder = true := by
  have hA := (C6_capture_flows_amended cfg0 [9] 5 42 "u" "yo".data
    { sampleWorld with user := { sampleUser with waiting_for_feedback := true } }
    _ _ (by decide) rfl rfl (by decide)).2.2.2.2.1 (by decide) (by decide)
  have hB := ((C6_capture_flows_amended cfg0 [9] 5 42 "u" "hi".data
    { sampleWorld with user := { sampleUser with setting_reminder := true } }
    _ _ (by decide) rfl rfl (by decide)).2.2.2.2.2.2 (by decide) (by decide)
      (by decide)).1 (by decide)
  refine ⟨?_, ?_, hB.2⟩
  · rw [hA]
  · rw [hA]
    decide
